import Mathlib

/-!
Shallow embedding of the React component layer of the repository:
the Button component (src/unnamed/part_003, also
src/frontend/src/components/button) and the Input component
(src/frontend/src/components/input/Input.tsx).

Abstract values: ReactNode, Callback and Event are opaque identifiers
(`Nat`); the model records which events a callback receives instead of
executing it.  Optional props are `Option` fields; the JS destructuring
defaults (`variant = 'primary'`, `loading = false`, `disabled = true`
for Input, ...) are applied by an explicit destructuring step, mirroring
the parameter lists of the two components.  JS truthiness of an optional
string (`error ? ...`, `Boolean(error)`, `label && ...`) is `strTruthy`:
`undefined` and the empty string are falsy.
-/

abbrev ReactNode := Nat
abbrev Callback := Nat
abbrev Event := Nat

/-- JS truthiness of a `string | undefined` value: undefined and "" are falsy. -/
def strTruthy : Option String → Bool
  | some s => s != ""
  | none => false

/-- JS truthiness of a `boolean | undefined` value. -/
def boolTruthy : Option Bool → Bool
  | some b => b
  | none => false

/-- Stringification used by JS template literals: `undefined` prints as "undefined". -/
def jsStr : Option String → String
  | some s => s
  | none => "undefined"

/-! ## Button (src/unnamed/part_003) -/

/-- The props accepted by Button (interface ButtonProps, lines 4-19 of
part_003, together with the shared BaseComponentProps / LoadingState /
DisabledState / EventHandlers fields read by the destructuring on
lines 22-37). `none` is an absent (undefined) prop. -/
structure ButtonProps where
  variant : Option String := none
  size : Option String := none
  children : ReactNode
  className : Option String := none
  loading : Option Bool := none
  disabled : Option Bool := none
  disabledReason : Option String := none
  type : Option String := none
  fullWidth : Option Bool := none
  startIcon : Option ReactNode := none
  endIcon : Option ReactNode := none
  onClick : Option Callback := none
  dataTestId : Option String := none
deriving DecidableEq

/-- The destructured parameters of the Button function component, after
the defaults of lines 22-37 of part_003 are applied. -/
structure ButtonFields where
  variant : String
  size : String
  children : ReactNode
  className : String
  loading : Bool
  disabled : Bool
  disabledReason : Option String
  type : String
  fullWidth : Bool
  startIcon : Option ReactNode
  endIcon : Option ReactNode
  onClick : Option Callback
  dataTestId : Option String
deriving DecidableEq

/-- The destructuring with defaults on lines 22-37 of part_003
(a JS destructuring default fires exactly when the value is undefined). -/
def destructureButton (p : ButtonProps) : ButtonFields where
  variant := p.variant.getD "primary"
  size := p.size.getD "medium"
  children := p.children
  className := p.className.getD ""
  loading := p.loading.getD false
  disabled := p.disabled.getD false
  disabledReason := p.disabledReason
  type := p.type.getD "button"
  fullWidth := p.fullWidth.getD false
  startIcon := p.startIcon
  endIcon := p.endIcon
  onClick := p.onClick
  dataTestId := p.dataTestId

/-- `const isDisabled = disabled || loading` (line 38). In every use site
(boolean test, `disabled={...}` attribute, `&&` guard) only the truthiness
of the JS value matters, so the model keeps the Bool. -/
def isDisabled (f : ButtonFields) : Bool := f.disabled || f.loading

/-- `baseClasses` (lines 40-47). -/
def baseClasses (f : ButtonFields) : String :=
  String.intercalate " "
    [ "inline-flex items-center justify-center"
    , "font-medium rounded-lg transition-all duration-200"
    , "focus:outline-none focus:ring-2 focus:ring-offset-2 focus:ring-offset-gray-900"
    , "disabled:opacity-50 disabled:cursor-not-allowed"
    , "shadow-lg hover:shadow-xl"
    , if f.fullWidth then "w-full" else "w-auto" ]

/-- The `variantClasses` lookup object (lines 49-56); indexing with a key
outside the object yields undefined. -/
def variantClasses (v : String) : Option String :=
  if v = "primary" then some "text-white bg-gradient-to-r from-blue-600 to-blue-700 hover:from-blue-700 hover:to-blue-800 focus:ring-blue-500/50 disabled:from-blue-400 disabled:to-blue-500"
  else if v = "secondary" then some "text-blue-400 bg-gray-800 hover:bg-gray-700 focus:ring-blue-500/50 border border-gray-600 hover:border-gray-500"
  else if v = "success" then some "text-white bg-gradient-to-r from-emerald-600 to-emerald-700 hover:from-emerald-700 hover:to-emerald-800 focus:ring-emerald-500/50 disabled:from-emerald-400 disabled:to-emerald-500"
  else if v = "warning" then some "text-white bg-gradient-to-r from-amber-600 to-amber-700 hover:from-amber-700 hover:to-amber-800 focus:ring-amber-500/50 disabled:from-amber-400 disabled:to-amber-500"
  else if v = "error" then some "text-white bg-gradient-to-r from-red-600 to-red-700 hover:from-red-700 hover:to-red-800 focus:ring-red-500/50 disabled:from-red-400 disabled:to-red-500"
  else if v = "info" then some "text-white bg-gradient-to-r from-indigo-600 to-indigo-700 hover:from-indigo-700 hover:to-indigo-800 focus:ring-indigo-500/50 disabled:from-indigo-400 disabled:to-indigo-500"
  else none

/-- The `sizeClasses` lookup object (lines 58-62). -/
def sizeClasses (s : String) : Option String :=
  if s = "small" then some "px-3 py-1.5 text-sm gap-1.5"
  else if s = "medium" then some "px-4 py-2 text-base gap-2"
  else if s = "large" then some "px-6 py-3 text-lg gap-2.5"
  else none

/-- The template literal on line 80 of part_003. -/
def buttonClassName (f : ButtonFields) : String :=
  (baseClasses f ++ " " ++ jsStr (variantClasses f.variant) ++ " "
    ++ jsStr (sizeClasses f.size) ++ " " ++ f.className).trim

/-- A child node of the rendered button element (lines 87-101):
the spinner svg, a text node, the flex-shrink-0 span around an icon, or
the span around `children`. -/
inductive BNode where
  | spinnerSvg : BNode
  | text : String → BNode
  | iconSpan : ReactNode → BNode
  | contentSpan : ReactNode → BNode
deriving DecidableEq

/-- The children of the rendered button element: the loading branch is the
spinner plus the text node; otherwise the optional icon spans surround the
span holding `children` (lines 87-101). -/
def buttonChildren (f : ButtonFields) : List BNode :=
  if f.loading then
    [BNode.spinnerSvg, BNode.text "Loading..."]
  else
    (match f.startIcon with
      | some i => [BNode.iconSpan i]
      | none => [])
    ++ [BNode.contentSpan f.children]
    ++ (match f.endIcon with
      | some i => [BNode.iconSpan i]
      | none => [])

/-- The rendered button element: its attributes (lines 77-85) and
children (lines 87-101). -/
structure ButtonEl where
  type : String
  className : String
  disabled : Bool
  ariaLabel : Option String
  dataTestId : Option String
  children : List BNode
deriving DecidableEq

/-- The JSX returned by Button (lines 76-103 of part_003).
`aria-label={disabledReason && isDisabled ? disabledReason : undefined}`:
the condition is truthy exactly when disabledReason is a non-empty string
and isDisabled holds, and then the attribute value is disabledReason. -/
def renderButton (p : ButtonProps) : ButtonEl :=
  let f := destructureButton p
  { type := f.type
  , className := buttonClassName f
  , disabled := isDisabled f
  , ariaLabel := if strTruthy f.disabledReason && isDisabled f then f.disabledReason else none
  , dataTestId := f.dataTestId
  , children := buttonChildren f }

/-- The observable outcome of one dispatch of handleClick: the events
passed to the onClick callback, and whether preventDefault was called. -/
structure ClickOutcome where
  calls : List Event
  defaultPrevented : Bool
deriving DecidableEq

/-- `handleClick` (lines 64-74 of part_003): return early when disabled
or no callback; otherwise, when loading, prevent default and return;
otherwise invoke onClick with the event. -/
def handleClick (f : ButtonFields) (e : Event) : ClickOutcome :=
  if isDisabled f || f.onClick.isNone then
    { calls := [], defaultPrevented := false }
  else if f.loading then
    { calls := [], defaultPrevented := true }
  else
    { calls := [e], defaultPrevented := false }

/-- Total number of onClick invocations over a sequence of activation
attempts dispatched to the rendered button. -/
def callbackCount (p : ButtonProps) : List Event → Nat
  | [] => 0
  | e :: es => (handleClick (destructureButton p) e).calls.length + callbackCount p es

/-- The click behaviour the claim C9 describes: invoke the callback on the
event exactly when disabled is false, loading is false and onClick is
supplied; never touch preventDefault. -/
def clickSpec (f : ButtonFields) (e : Event) : ClickOutcome :=
  if !f.disabled && !f.loading && f.onClick.isSome then
    { calls := [e], defaultPrevented := false }
  else
    { calls := [], defaultPrevented := false }

/-! ## Input (src/frontend/src/components/input/Input.tsx) -/

/-- The props accepted by Input (interface InputProps, lines 4-20 of
Input.tsx, together with the shared BaseComponentProps / FormFieldProps /
EventHandlers fields). `none` is an absent (undefined) prop. -/
structure InputProps where
  label : Option String := none
  type : Option String := none
  className : Option String := none
  id : Option String := none
  disabled : Option Bool := none
  error : Option String := none
  required : Option Bool := none
  helpText : Option String := none
  value : Option String := none
  defaultValue : Option String := none
  placeholder : Option String := none
  onChange : Option Callback := none
  onFocus : Option Callback := none
  onBlur : Option Callback := none
  dataTestId : Option String := none
deriving DecidableEq

/-- The destructured parameters of the Input function component
(lines 25-35 of Input.tsx), after the defaults `type = 'text'`,
`className = ''` and `disabled = true` are applied. The remaining props
(value, defaultValue, placeholder and the handlers) stay in the
`...props` rest object and are spread onto the input element. -/
structure InputFields where
  label : Option String
  type : String
  className : String
  id : Option String
  disabled : Bool
  error : Option String
  required : Option Bool
  helpText : Option String
deriving DecidableEq

/-- The destructuring with defaults on lines 25-35 of Input.tsx. -/
def destructureInput (p : InputProps) : InputFields where
  label := p.label
  type := p.type.getD "text"
  className := p.className.getD ""
  id := p.id
  disabled := p.disabled.getD true
  error := p.error
  required := p.required
  helpText := p.helpText

/-- `const inputId = id || generateId()` (line 36): the supplied id when
it is truthy, else the generated one. `gen` stands for the value
generateId() would return (it draws on Math.random, so the model takes it
as a parameter; every theorem holds for all gen). -/
def inputIdStr (f : InputFields) (gen : String) : String :=
  match f.id with
  | some s => if s != "" then s else gen
  | none => gen

/-- `const hasError = Boolean(error)` (line 37). -/
def hasError (f : InputFields) : Bool := strTruthy f.error

/-- `baseInputClasses` (lines 39-48) followed by the template literal of
line 62. -/
def inputClassName (f : InputFields) : String :=
  (String.intercalate " "
    [ "w-full px-4 py-3 border rounded-lg"
    , "bg-gray-800 text-white placeholder-gray-400"
    , "focus:outline-none focus:ring-2 focus:ring-offset-2 focus:ring-offset-gray-900"
    , "disabled:bg-gray-700 disabled:text-gray-500 disabled:cursor-not-allowed"
    , "transition-all duration-200 shadow-sm"
    , if hasError f then "border-red-500/50 focus:ring-red-500/50 focus:border-red-500"
      else "border-gray-600 focus:ring-blue-500/50 focus:border-blue-500 hover:border-gray-500" ]
    ++ " " ++ f.className).trim

/-- The rendered label element (lines 52-57): htmlFor, the label text,
and whether the required marker span (the asterisk) is rendered inside it. -/
structure LabelEl where
  htmlFor : String
  text : String
  requiredMark : Bool
deriving DecidableEq

/-- The rendered input element (lines 58-67). -/
structure InputEl where
  id : String
  type : String
  className : String
  required : Option Bool
  ariaInvalid : Bool
  ariaDescribedby : Option String
deriving DecidableEq

/-- The rendered output of Input (lines 50-79): the optional label
element, the input element, and the optional help and error text nodes,
each carried with the DOM id it is rendered under. -/
structure RenderedInput where
  labelEl : Option LabelEl
  inputEl : InputEl
  helpEl : Option (String × String)
  errorEl : Option (String × String)
deriving DecidableEq

/-- The JSX returned by Input (lines 50-79 of Input.tsx).
The label block renders when `label` is truthy and holds the required
marker when `required` is truthy (lines 52-57); the input element carries
`aria-invalid={hasError}` and
`aria-describedby={error ? id-error : helpText ? id-help : undefined}`
(lines 64-65); the help node renders when `helpText && !error`
(lines 68-72); the error node renders when `error` is truthy
(lines 73-77). -/
def renderInput (p : InputProps) (gen : String) : RenderedInput :=
  let f := destructureInput p
  let iid := inputIdStr f gen
  { labelEl :=
      if strTruthy f.label then
        some { htmlFor := iid, text := f.label.getD "", requiredMark := boolTruthy f.required }
      else none
  , inputEl :=
      { id := iid
      , type := f.type
      , className := inputClassName f
      , required := f.required
      , ariaInvalid := hasError f
      , ariaDescribedby :=
          if strTruthy f.error then some (iid ++ "-error")
          else if strTruthy f.helpText then some (iid ++ "-help")
          else none }
  , helpEl :=
      if strTruthy f.helpText && !strTruthy f.error then some (iid ++ "-help", f.helpText.getD "")
      else none
  , errorEl :=
      if strTruthy f.error then some (iid ++ "-error", f.error.getD "")
      else none }

/-- The attribute names carried by the rendered input element: the
explicit attributes of lines 58-65 (aria-describedby is omitted when its
value is undefined, as React drops undefined-valued attributes) followed
by the keys of the `...props` rest object spread on line 66. `disabled`
is consumed by the destructuring on line 30 and is not among them. -/
def inputAttrKeys (p : InputProps) (gen : String) : List String :=
  let f := destructureInput p
  let _ := gen
  ["id", "type", "className", "required", "aria-invalid"]
  ++ (if strTruthy f.error || strTruthy f.helpText then ["aria-describedby"] else [])
  ++ (match p.value with | some _ => ["value"] | none => [])
  ++ (match p.defaultValue with | some _ => ["defaultValue"] | none => [])
  ++ (match p.placeholder with | some _ => ["placeholder"] | none => [])
  ++ (match p.onChange with | some _ => ["onChange"] | none => [])
  ++ (match p.onFocus with | some _ => ["onFocus"] | none => [])
  ++ (match p.onBlur with | some _ => ["onBlur"] | none => [])
  ++ (match p.dataTestId with | some _ => ["data-testid"] | none => [])

/-- Whether the required-field visual marker (the asterisk span of
line 55) is present anywhere in the rendered output. -/
def requiredMarkPresent (r : RenderedInput) : Bool :=
  match r.labelEl with
  | some l => l.requiredMark
  | none => false

/-- The DOM ids of the elements present in the rendered output of Input. -/
def renderedIds (r : RenderedInput) : List String :=
  r.inputEl.id
    :: ((match r.helpEl with | some hl => [hl.1] | none => [])
      ++ (match r.errorEl with | some el => [el.1] | none => []))

/-! ## Theorems -/

/-- Helper: whenever isDisabled holds, handleClick returns without
invoking the callback and without preventing default. -/
theorem handleClick_of_isDisabled (f : ButtonFields) (e : Event)
    (h : isDisabled f = true) :
    handleClick f e = { calls := [], defaultPrevented := false } := by
  simp [handleClick, h]

/-- C1: for the Button component, every activation attempt made while
disabled=true or loading=true leaves the onClick callback uninvoked: over
any sequence of click events the callback count remains zero. -/
theorem button_no_callback_when_disabled_or_loading (p : ButtonProps) (es : List Event)
    (h : (destructureButton p).disabled = true ∨ (destructureButton p).loading = true) :
    callbackCount p es = 0 := by
  have hd : isDisabled (destructureButton p) = true := by
    rcases h with h | h <;> simp [isDisabled, h]
  induction es with
  | nil => rfl
  | cons e es ih =>
      simp [callbackCount, handleClick_of_isDisabled _ _ hd, ih]

theorem button_no_callback_when_disabled_or_loading_witness :
    (destructureButton { children := 7, disabled := some true, onClick := some 5 }).disabled = true
      ∧ callbackCount { children := 7, disabled := some true, onClick := some 5 } [1, 2, 3] = 0 :=
  ⟨by decide,
    button_no_callback_when_disabled_or_loading
      { children := 7, disabled := some true, onClick := some 5 } [1, 2, 3] (Or.inl (by decide))⟩

/-- C2: for the Button component, an activation attempt made while neither
disabled nor loading holds, with an onClick callback supplied, invokes the
callback exactly once, with the activation event. -/
theorem button_invokes_callback_exactly_once (p : ButtonProps) (e : Event)
    (h1 : (destructureButton p).disabled = false)
    (h2 : (destructureButton p).loading = false)
    (h3 : (destructureButton p).onClick.isSome = true) :
    handleClick (destructureButton p) e = { calls := [e], defaultPrevented := false }
      ∧ callbackCount p [e] = 1 := by
  obtain ⟨c, hc⟩ := Option.isSome_iff_exists.mp h3
  constructor
  · simp [handleClick, isDisabled, h1, h2, hc]
  · simp [callbackCount, handleClick, isDisabled, h1, h2, hc]

theorem button_invokes_callback_exactly_once_witness :
    (destructureButton { children := 7, onClick := some 5 }).disabled = false
      ∧ (destructureButton { children := 7, onClick := some 5 }).loading = false
      ∧ (destructureButton { children := 7, onClick := some 5 }).onClick.isSome = true
      ∧ callbackCount { children := 7, onClick := some 5 } [4] = 1 :=
  ⟨by decide, by decide, by decide,
    (button_invokes_callback_exactly_once { children := 7, onClick := some 5 } 4
      (by decide) (by decide) (by decide)).2⟩

/-- C3: for the Button component, loading=true forces the disabled
attribute of the rendered button element and replaces its children with
the fixed busy indicator (spinner plus the text node "Loading...");
disabled=true with loading=false also sets the disabled attribute but the
span holding the children content is still rendered. -/
theorem button_loading_replaces_content (p : ButtonProps) :
    ((destructureButton p).loading = true →
        (renderButton p).disabled = true
          ∧ (renderButton p).children = [BNode.spinnerSvg, BNode.text "Loading..."])
      ∧ ((destructureButton p).disabled = true → (destructureButton p).loading = false →
        (renderButton p).disabled = true
          ∧ BNode.contentSpan (destructureButton p).children ∈ (renderButton p).children) := by
  constructor
  · intro h
    simp [renderButton, isDisabled, buttonChildren, h]
  · intro hd hl
    refine ⟨by simp [renderButton, isDisabled, hd], ?_⟩
    simp only [renderButton, buttonChildren, hl, if_false, Bool.false_eq_true]
    simp [List.mem_append]

theorem button_loading_replaces_content_witness :
    (renderButton { children := 7, loading := some true }).children
        = [BNode.spinnerSvg, BNode.text "Loading..."]
      ∧ BNode.contentSpan 7 ∈ (renderButton { children := 7, disabled := some true }).children :=
  ⟨((button_loading_replaces_content { children := 7, loading := some true }).1 (by decide)).2,
    ((button_loading_replaces_content { children := 7, disabled := some true }).2
      (by decide) (by decide)).2⟩

/-- C8: for the Button component, a non-empty disabledReason string
together with the disabled-or-loading condition makes the aria-label of
the rendered button element equal to disabledReason; when the button is
neither disabled nor loading, no aria-label is set. -/
theorem button_aria_label_disabled_reason (p : ButtonProps) :
    (∀ s, (destructureButton p).disabledReason = some s → s ≠ "" →
        isDisabled (destructureButton p) = true → (renderButton p).ariaLabel = some s)
      ∧ (isDisabled (destructureButton p) = false → (renderButton p).ariaLabel = none) := by
  constructor
  · intro s hs hne hd
    have hb : (s != "") = true := bne_iff_ne.mpr hne
    simp [renderButton, strTruthy, hs, hd, hb]
  · intro hd
    simp [renderButton, hd]

theorem button_aria_label_disabled_reason_witness :
    (renderButton { children := 7, loading := some true, disabledReason := some "saving" }).ariaLabel
        = some "saving"
      ∧ (renderButton { children := 7, disabledReason := some "saving" }).ariaLabel = none :=
  ⟨(button_aria_label_disabled_reason
        { children := 7, loading := some true, disabledReason := some "saving" }).1
      "saving" rfl (by decide) (by decide),
    (button_aria_label_disabled_reason { children := 7, disabledReason := some "saving" }).2
      (by decide)⟩

/-- C9: in handleClick the inner branch guarded by `if (loading)` is
unreachable: preventDefault is never called, and handleClick is
extensionally equal to the function that invokes onClick on the event
exactly when disabled=false, loading=false and onClick is supplied. -/
theorem handleClick_loading_branch_unreachable (f : ButtonFields) (e : Event) :
    handleClick f e = clickSpec f e ∧ (handleClick f e).defaultPrevented = false := by
  obtain ⟨v, s, ch, c, l, d, dr, t, fw, si, ei, oc, ti⟩ := f
  cases l <;> cases d <;> cases oc <;> simp [handleClick, clickSpec, isDisabled]

/-- C4: for the Input component, at most one auxiliary text node is
associated to the field, and error wins: with a non-empty error string the
aria-describedby of the input element references the error node and the
help node is not rendered; with only helpText it references the help node;
with neither it is absent. -/
theorem input_single_description_error_wins (p : InputProps) (gen : String) :
    (strTruthy p.error = true →
        (renderInput p gen).inputEl.ariaDescribedby
            = some (inputIdStr (destructureInput p) gen ++ "-error")
          ∧ (renderInput p gen).helpEl = none
          ∧ (∃ t, (renderInput p gen).errorEl
              = some (inputIdStr (destructureInput p) gen ++ "-error", t)))
      ∧ (strTruthy p.error = false → strTruthy p.helpText = true →
        (renderInput p gen).inputEl.ariaDescribedby
            = some (inputIdStr (destructureInput p) gen ++ "-help")
          ∧ (∃ t, (renderInput p gen).helpEl
              = some (inputIdStr (destructureInput p) gen ++ "-help", t)))
      ∧ (strTruthy p.error = false → strTruthy p.helpText = false →
        (renderInput p gen).inputEl.ariaDescribedby = none
          ∧ (renderInput p gen).helpEl = none ∧ (renderInput p gen).errorEl = none) := by
  refine ⟨fun he => ?_, fun he hh => ?_, fun he hh => ?_⟩ <;>
    simp [renderInput, destructureInput, he, *]

theorem input_single_description_error_wins_witness :
    (renderInput { error := some "bad", helpText := some "hint" } "input-w1").inputEl.ariaDescribedby
        = some "input-w1-error"
      ∧ (renderInput { error := some "bad", helpText := some "hint" } "input-w1").helpEl = none
      ∧ (renderInput { helpText := some "hint" } "input-w2").inputEl.ariaDescribedby
        = some "input-w2-help"
      ∧ (renderInput ({} : InputProps) "input-w3").inputEl.ariaDescribedby = none :=
  ⟨((input_single_description_error_wins
        { error := some "bad", helpText := some "hint" } "input-w1").1 (by decide)).1,
    ((input_single_description_error_wins
        { error := some "bad", helpText := some "hint" } "input-w1").1 (by decide)).2.1,
    ((input_single_description_error_wins
        { helpText := some "hint" } "input-w2").2.1 (by decide) (by decide)).1,
    ((input_single_description_error_wins ({} : InputProps) "input-w3").2.2
      (by decide) (by decide)).1⟩

/-- C5 counterexample: with required=true and no label supplied, the
rendered output of Input contains no required-field marker, contradicting
the claim that the marker is present for every combination of the other
props. -/
theorem input_required_marker_cex :
    ({ required := some true } : InputProps).required = some true
      ∧ ({ required := some true } : InputProps).label = none
      ∧ requiredMarkPresent (renderInput { required := some true } "input-c1") = false := by
  refine ⟨rfl, rfl, ?_⟩
  rfl

/-- C5 amended: for the Input component with required truthy, the
required-field marker is present exactly when a truthy (non-empty) label
is also supplied: the marker span lives inside the label block, so without
a label no marker is rendered. -/
theorem input_required_marker_iff_label (p : InputProps) (gen : String)
    (h : boolTruthy p.required = true) :
    requiredMarkPresent (renderInput p gen) = strTruthy p.label := by
  cases hl : strTruthy p.label <;>
    simp [renderInput, requiredMarkPresent, destructureInput, hl, h]

theorem input_required_marker_iff_label_witness :
    boolTruthy ({ label := some "Email", required := some true } : InputProps).required = true
      ∧ requiredMarkPresent (renderInput { label := some "Email", required := some true } "input-c2")
        = strTruthy (some "Email") :=
  ⟨by decide,
    input_required_marker_iff_label { label := some "Email", required := some true } "input-c2"
      (by decide)⟩

/-- C6: for the Input component, for every value of the disabled prop the
rendered input element carries no disabled attribute (the prop is consumed
by the destructuring and never forwarded through the rest spread), and the
destructuring default of the prop is true. -/
theorem input_disabled_prop_not_forwarded (p : InputProps) (gen : String) :
    "disabled" ∉ inputAttrKeys p gen
      ∧ (p.disabled = none → (destructureInput p).disabled = true) := by
  obtain ⟨l, t, c, i, d, e, r, ht, v, dv, ph, oc, ofo, ob, ti⟩ := p
  constructor
  · cases hb : strTruthy e || strTruthy ht <;>
      cases v <;> cases dv <;> cases ph <;> cases oc <;> cases ofo <;> cases ob <;> cases ti <;>
      simp_all [inputAttrKeys, destructureInput]
  · intro h
    have hd : d = none := h
    simp [destructureInput, hd]

theorem input_disabled_prop_not_forwarded_witness :
    "disabled" ∉ inputAttrKeys
        { disabled := some true, value := some "x", placeholder := some "p" } "input-c3"
      ∧ (destructureInput ({} : InputProps)).disabled = true :=
  ⟨(input_disabled_prop_not_forwarded
      { disabled := some true, value := some "x", placeholder := some "p" } "input-c3").1,
    (input_disabled_prop_not_forwarded ({} : InputProps) "input-c4").2 rfl⟩

/-- C7: for the Input component, the aria-invalid attribute of the
rendered input element is true exactly when a non-empty error string is
supplied, and a non-empty error string is rendered in the error node. -/
theorem input_aria_invalid_iff_nonempty_error (p : InputProps) (gen : String) :
    ((renderInput p gen).inputEl.ariaInvalid = true ↔ ∃ s, p.error = some s ∧ s ≠ "")
      ∧ (∀ s, p.error = some s → s ≠ "" →
        (renderInput p gen).errorEl
          = some (inputIdStr (destructureInput p) gen ++ "-error", s)) := by
  constructor
  · cases he : p.error with
    | none => simp [renderInput, hasError, destructureInput, strTruthy, he]
    | some s =>
        simp [renderInput, hasError, destructureInput, strTruthy, he, bne_iff_ne]
  · intro s hs hne
    have hb : (s != "") = true := bne_iff_ne.mpr hne
    simp [renderInput, destructureInput, strTruthy, hs, hb]

theorem input_aria_invalid_iff_nonempty_error_witness :
    (renderInput { label := some "Email", error := some "Email is required" } "input-c5").inputEl.ariaInvalid
        = true
      ∧ (renderInput { label := some "Email", error := some "Email is required" } "input-c5").errorEl
        = some ("input-c5-error", "Email is required") :=
  ⟨(input_aria_invalid_iff_nonempty_error
        { label := some "Email", error := some "Email is required" } "input-c5").1.mpr
      ⟨"Email is required", rfl, by decide⟩,
    (input_aria_invalid_iff_nonempty_error
        { label := some "Email", error := some "Email is required" } "input-c5").2
      "Email is required" rfl (by decide)⟩

/-- C10: for the Input component, an aria-describedby value always names
an element rendered in the same output (the error node when error is
present, otherwise the help node), and the htmlFor of a rendered label
always equals the id of the input element: no reference dangles. -/
theorem input_description_references_resolve (p : InputProps) (gen : String) :
    (∀ d, (renderInput p gen).inputEl.ariaDescribedby = some d →
        d ∈ renderedIds (renderInput p gen))
      ∧ (∀ d, (renderInput p gen).inputEl.ariaDescribedby = some d →
        (strTruthy p.error = true ∧ ∃ t, (renderInput p gen).errorEl = some (d, t))
          ∨ (strTruthy p.error = false ∧ ∃ t, (renderInput p gen).helpEl = some (d, t)))
      ∧ (∀ le, (renderInput p gen).labelEl = some le →
        le.htmlFor = (renderInput p gen).inputEl.id) := by
  refine ⟨fun d hd => ?_, fun d hd => ?_, fun le hle => ?_⟩
  · cases he : strTruthy p.error <;> cases hh : strTruthy p.helpText <;>
      simp_all [renderInput, destructureInput, renderedIds]
  · cases he : strTruthy p.error <;> cases hh : strTruthy p.helpText <;>
      simp_all [renderInput, destructureInput]
  · cases hl : strTruthy p.label
    · simp [renderInput, destructureInput, hl] at hle
    · have hrw : (renderInput p gen).labelEl
          = some { htmlFor := (renderInput p gen).inputEl.id
                 , text := p.label.getD ""
                 , requiredMark := boolTruthy p.required } := by
        simp [renderInput, destructureInput, hl]
      rw [hrw] at hle
      cases Option.some.inj hle
      rfl

theorem input_description_references_resolve_witness :
    "input-c6-error" ∈ renderedIds (renderInput { error := some "bad" } "input-c6")
      ∧ "input-c7-help" ∈ renderedIds (renderInput { helpText := some "hint" } "input-c7")
      ∧ (∀ le, (renderInput { label := some "Email" } "input-c8").labelEl = some le →
        le.htmlFor = "input-c8") :=
  ⟨(input_description_references_resolve { error := some "bad" } "input-c6").1
      "input-c6-error" (by decide),
    (input_description_references_resolve { helpText := some "hint" } "input-c7").1
      "input-c7-help" (by decide),
    fun le hle =>
      (input_description_references_resolve { label := some "Email" } "input-c8").2.2 le hle⟩
